import Mathlib

/-!
Shallow embedding of `radio_duck/sqlalchemy.py` (the RadioDuckDialect class):
the schema-introspection operations, the connection-lifecycle stubs and the
connect-argument builder, together with theorems checking the repository's
specification against this embedding.

The external DB-API collaborator (connection / cursor) is modelled by its
observable behaviour: each step (`cursor()`, `execute`, `fetchall`,
`fetchone`) either succeeds with a value or raises, and every operation
additionally produces a trace of events recording which query was executed
with which bound parameter list and whether the cursor was closed.
-/

set_option linter.unusedVariables false

namespace RadioDuck

/-- Python exceptions that the modelled code can raise or propagate. -/
inductive PyErr where
  | notImplementedError
  | notSupportedError (msg : String)
  | indexError
  | typeError
  | keyError
  | dbError (msg : String)
deriving DecidableEq

/-- Python runtime values appearing in catalog rows and result records. -/
inductive PyVal where
  | vStr (s : String)
  | vBool (b : Bool)
  | vInt (n : Int)
  | vNone
  | vStrList (l : List String)
deriving DecidableEq

/-- The named parameterized SQL statements imported from `radio_duck.queries`.
Their SQL text is irrelevant to the claims; each is an opaque distinct label. -/
inductive Query where
  | get_check_constraint
  | get_columns
  | get_constraints
  | get_indexes
  | get_sequences
  | get_tables
  | get_temp_tables
  | get_temp_views
  | get_view_sql
  | get_views
  | has_index_query
  | has_sequence_query
  | has_table_query
deriving DecidableEq

/-- Observable events of one introspection call: a query executed with a
bound positional parameter list, and the cursor being closed. -/
inductive Event where
  | executed (q : Query) (ps : List PyVal)
  | closed
deriving DecidableEq

/-- Behaviour of a cursor obtained from `connection.cursor()`: each DB-API
step either succeeds or raises. -/
structure Cursor where
  execRes : Query → List PyVal → Except PyErr Unit
  rowcount : Int
  fetchallRes : Except PyErr (List (List PyVal))
  fetchoneRes : Except PyErr (Option (List PyVal))

/-- Behaviour of the supplied connection: `cursor()` either yields a cursor
or raises. -/
structure Conn where
  cursorRes : Except PyErr Cursor

/-- Python `str.strip` whitespace test (ASCII whitespace). -/
def pyIsSpace (c : Char) : Bool :=
  c = ' ' || c = '\t' || c = '\n' || c = '\r' || c = '\x0b' || c = '\x0c'

/-- Python `str.strip()`: drop whitespace from both ends. -/
def pyStrip (s : String) : String :=
  ⟨((s.data.dropWhile pyIsSpace).reverse.dropWhile pyIsSpace).reverse⟩

/-- The schema normalization done at the top of the introspection methods:
`if schema is None or "" == schema.strip(): schema = "main"`. -/
def normalizeSchema (schema : Option String) : String :=
  match schema with
  | none => "main"
  | some s => if pyStrip s = "" then "main" else s

/-- Python `row[i]` on a list: `IndexError` when out of range. -/
def pyIndex : List PyVal → Nat → Except PyErr PyVal
  | [], _ => .error .indexError
  | v :: _, 0 => .ok v
  | _ :: rest, i + 1 => pyIndex rest i

/-- `re.search` requires a string argument; anything else raises `TypeError`. -/
def asStr : PyVal → Except PyErr String
  | .vStr s => .ok s
  | _ => .error .typeError

/-- A Python dict used as a result record: ordered key/value pairs. -/
abbrev Rec := List (String × PyVal)

/-- Python `mp[k] = v`: replace the value in place when the key exists,
append the pair otherwise. -/
def recSet : Rec → String → PyVal → Rec
  | [], k, v => [(k, v)]
  | (k0, v0) :: rest, k, v =>
      if k0 = k then (k0, v) :: rest else (k0, v0) :: recSet rest k v

/-- Python `mp[k]` lookup: `KeyError` when absent. -/
def recGet : Rec → String → Except PyErr PyVal
  | [], _ => .error .keyError
  | (k0, v0) :: rest, k => if k0 = k then .ok v0 else recGet rest k

/-- Python `del mp[k]` on a key known to exist: remove the first binding. -/
def recDel : Rec → String → Rec
  | [], _ => []
  | (k0, v0) :: rest, k => if k0 = k then rest else (k0, v0) :: recDel rest k

/-- Lazy closing scan for `re.search(r"\((.*?)\)", sql)`: starting right
after a candidate `(`, collect characters up to the first `)`; fail if a
newline (which `.` does not match) or the end of string comes first. -/
def tryClose : List Char → Option (List Char)
  | [] => none
  | c :: rest =>
      if c = ')' then some []
      else if c = '\n' then none
      else (tryClose rest).map (fun l => c :: l)

/-- Leftmost match of `\((.*?)\)`: try each position left to right; at a
`(` attempt the lazy close, otherwise move on. Returns group 1. -/
def searchParen : List Char → Option (List Char)
  | [] => none
  | c :: rest =>
      if c = '(' then
        match tryClose rest with
        | some g => some g
        | none => searchParen rest
      else searchParen rest

/-- `re.search(r"\((.*?)\)", sql)` reduced to its group-1 text. -/
def reFirstGroup (s : String) : Option String :=
  (searchParen s.data).map (fun l => ⟨l⟩)

/-- Python `str.split(",")` on the character list: every comma separates,
empty pieces are kept, and the empty string yields one empty piece. -/
def splitComma : List Char → List (List Char)
  | [] => [[]]
  | c :: rest =>
      if c = ',' then [] :: splitComma rest
      else
        match splitComma rest with
        | [] => [[c]]
        | h :: t => (c :: h) :: t

/-- Python `s.split(",")`. -/
def splitCommaStr (s : String) : List String :=
  (splitComma s.data).map (fun l => ⟨l⟩)

/-- The column-name derivation of `get_indexes`: first parenthesized group
of the stored creation SQL, split on commas, each piece stripped; `[]`
when the regex finds no group. -/
def specColumnNames (sql : String) : List String :=
  match reFirstGroup sql with
  | some g => (splitCommaStr g).map pyStrip
  | none => []

/-- `[{"name": row[0], "column_names": row[1]} for row in rows]`. -/
def constraintRecs : List (List PyVal) → Except PyErr (List Rec)
  | [] => .ok []
  | row :: rest => do
      let n ← pyIndex row 0
      let c ← pyIndex row 1
      let tail ← constraintRecs rest
      pure ([("name", n), ("column_names", c)] :: tail)

/-- `[{"name": row[0], "type": row[1], "nullable": row[2], "default": row[3]}
for row in rows]`. -/
def columnRecs : List (List PyVal) → Except PyErr (List Rec)
  | [] => .ok []
  | row :: rest => do
      let n ← pyIndex row 0
      let t ← pyIndex row 1
      let nl ← pyIndex row 2
      let d ← pyIndex row 3
      let tail ← columnRecs rest
      pure ([("name", n), ("type", t), ("nullable", nl), ("default", d)] :: tail)

/-- `[{"name": row[0], "sqltext": row[1]} for row in rows]`. -/
def checkRecs : List (List PyVal) → Except PyErr (List Rec)
  | [] => .ok []
  | row :: rest => do
      let n ← pyIndex row 0
      let s ← pyIndex row 1
      let tail ← checkRecs rest
      pure ([("name", n), ("sqltext", s)] :: tail)

/-- `[{"name": row[0], "sql": row[1], "unique": row[2]} for row in rows]`. -/
def buildIndexMaps : List (List PyVal) → Except PyErr (List Rec)
  | [] => .ok []
  | row :: rest => do
      let n ← pyIndex row 0
      let s ← pyIndex row 1
      let u ← pyIndex row 2
      let tail ← buildIndexMaps rest
      pure ([("name", n), ("sql", s), ("unique", u)] :: tail)

/-- The post-processing loop of `get_indexes`: set `column_names` to `[]`,
read `mp["sql"]`, regex-extract the column list when a parenthesized group
exists, and delete the raw `sql` field from every record. -/
def processIndexMaps : List Rec → Except PyErr (List Rec)
  | [] => .ok []
  | mp :: rest => do
      let mp1 := recSet mp "column_names" (.vStrList [])
      let sv ← recGet mp1 "sql"
      let sql ← asStr sv
      let mp2 :=
        match reFirstGroup sql with
        | some g => recSet mp1 "column_names" (.vStrList ((splitCommaStr g).map pyStrip))
        | none => mp1
      let tail ← processIndexMaps rest
      pure (recDel mp2 "sql" :: tail)

/-- The shared `try ... finally` shape of every cursor-acquiring method:
acquire the cursor (its failure acquires nothing, so nothing is closed),
execute the query, run the row-reading step, and close the cursor on every
exit path once it was obtained. The trace records the executed query with
its bound parameters and the close event. -/
def runQueryOp {α : Type} (connection : Conn) (q : Query) (ps : List PyVal)
    (read : Cursor → Except PyErr α) : Except PyErr α × List Event :=
  match connection.cursorRes with
  | .error e => (.error e, [])
  | .ok cursor =>
      ((cursor.execRes q ps).bind (fun _ => read cursor),
        [.executed q ps, .closed])

namespace RadioDuckDialect

/-- `isolation_level = "SNAPSHOT"` class attribute. -/
def isolation_level : String := "SNAPSHOT"

/-- `default_schema_name = "main"` class attribute. -/
def default_schema_name : String := "main"

/-- `has_index`: existence query bound to `[schema, table_name, index_name]`,
returning `cursor.rowcount == 1`. -/
def has_index (connection : Conn) (table_name index_name : String)
    (schema : Option String) : Except PyErr Bool × List Event :=
  runQueryOp connection .has_index_query
    [.vStr (normalizeSchema schema), .vStr table_name, .vStr index_name]
    (fun cursor => .ok (cursor.rowcount == 1))

/-- `has_table`: existence query bound to `[schema, table_name]`, returning
`cursor.rowcount == 1`. -/
def has_table (connection : Conn) (table_name : String)
    (schema : Option String) : Except PyErr Bool × List Event :=
  runQueryOp connection .has_table_query
    [.vStr (normalizeSchema schema), .vStr table_name]
    (fun cursor => .ok (cursor.rowcount == 1))

/-- `has_sequence`: existence query bound to `[schema, sequence_name]`,
returning `cursor.rowcount == 1`. -/
def has_sequence (connection : Conn) (sequence_name : String)
    (schema : Option String) : Except PyErr Bool × List Event :=
  runQueryOp connection .has_sequence_query
    [.vStr (normalizeSchema schema), .vStr sequence_name]
    (fun cursor => .ok (cursor.rowcount == 1))

/-- `get_table_names`: fetch all rows and flatten them into one list. -/
def get_table_names (connection : Conn) (schema : Option String) :
    Except PyErr (List PyVal) × List Event :=
  runQueryOp connection .get_tables [.vStr (normalizeSchema schema)]
    (fun cursor => cursor.fetchallRes.map List.flatten)

/-- `get_view_names`: fetch all rows and flatten them into one list. -/
def get_view_names (connection : Conn) (schema : Option String) :
    Except PyErr (List PyVal) × List Event :=
  runQueryOp connection .get_views [.vStr (normalizeSchema schema)]
    (fun cursor => cursor.fetchallRes.map List.flatten)

/-- `get_view_definition`: fetch one row; `""` when no row, else `row[0]`. -/
def get_view_definition (connection : Conn) (view_name : String)
    (schema : Option String) : Except PyErr PyVal × List Event :=
  runQueryOp connection .get_view_sql
    [.vStr (normalizeSchema schema), .vStr view_name]
    (fun cursor => do
      let row ← cursor.fetchoneRes
      match row with
      | none => pure (.vStr "")
      | some r => pyIndex r 0)

/-- `get_unique_constraints`: constraint query with kind `"UNIQUE"`. -/
def get_unique_constraints (connection : Conn) (table_name : String)
    (schema : Option String) : Except PyErr (List Rec) × List Event :=
  runQueryOp connection .get_constraints
    [.vStr (normalizeSchema schema), .vStr table_name, .vStr "UNIQUE"]
    (fun cursor => cursor.fetchallRes.bind constraintRecs)

/-- `get_temp_view_names`: the schema argument is ignored (temporary views
live in a special implicit schema) and the query is bound to `[]`. -/
def get_temp_view_names (connection : Conn) (schema : Option String) :
    Except PyErr (List PyVal) × List Event :=
  runQueryOp connection .get_temp_views []
    (fun cursor => cursor.fetchallRes.map List.flatten)

/-- `get_temp_table_names`: normalizes the schema and binds it as the one
query parameter, then flattens the fetched rows. -/
def get_temp_table_names (connection : Conn) (schema : Option String) :
    Except PyErr (List PyVal) × List Event :=
  runQueryOp connection .get_temp_tables [.vStr (normalizeSchema schema)]
    (fun cursor => cursor.fetchallRes.map List.flatten)

/-- `get_table_comment` raises `NotImplementedError`. -/
def get_table_comment (connection : Conn) (table_name : String)
    (schema : Option String) : Except PyErr Unit :=
  .error .notImplementedError

/-- `get_sequence_names`: fetch all rows and flatten them into one list. -/
def get_sequence_names (connection : Conn) (schema : Option String) :
    Except PyErr (List PyVal) × List Event :=
  runQueryOp connection .get_sequences [.vStr (normalizeSchema schema)]
    (fun cursor => cursor.fetchallRes.map List.flatten)

/-- `get_pk_constraint`: constraint query with kind `"PRIMARY KEY"`, read
with `fetchone`; `[]` when no row, one record otherwise. -/
def get_pk_constraint (connection : Conn) (table_name : String)
    (schema : Option String) : Except PyErr (List Rec) × List Event :=
  runQueryOp connection .get_constraints
    [.vStr (normalizeSchema schema), .vStr table_name, .vStr "PRIMARY KEY"]
    (fun cursor => do
      let row ← cursor.fetchoneRes
      match row with
      | none => pure []
      | some r => do
          let n ← pyIndex r 0
          let c ← pyIndex r 1
          pure [[("name", n), ("column_names", c)]])

/-- `get_indexes`: fetch all rows, build `name`/`sql`/`unique` maps, then
post-process each map (derive `column_names` from the stored SQL, drop the
raw `sql` field). -/
def get_indexes (connection : Conn) (table_name : String)
    (schema : Option String) : Except PyErr (List Rec) × List Event :=
  runQueryOp connection .get_indexes
    [.vStr (normalizeSchema schema), .vStr table_name]
    (fun cursor => do
      let rows ← cursor.fetchallRes
      let maps ← buildIndexMaps rows
      processIndexMaps maps)

/-- `get_foreign_keys`: constraint query with kind `"FOREIGN KEY"`. -/
def get_foreign_keys (connection : Conn) (table_name : String)
    (schema : Option String) : Except PyErr (List Rec) × List Event :=
  runQueryOp connection .get_constraints
    [.vStr (normalizeSchema schema), .vStr table_name, .vStr "FOREIGN KEY"]
    (fun cursor => cursor.fetchallRes.bind constraintRecs)

/-- `get_columns`: column-metadata query, rows shaped into
`name`/`type`/`nullable`/`default` records. -/
def get_columns (connection : Conn) (table_name : String)
    (schema : Option String) : Except PyErr (List Rec) × List Event :=
  runQueryOp connection .get_columns
    [.vStr (normalizeSchema schema), .vStr table_name]
    (fun cursor => cursor.fetchallRes.bind columnRecs)

/-- `get_check_constraints`: check-constraint query, rows shaped into
`name`/`sqltext` records. -/
def get_check_constraints (connection : Conn) (table_name : String)
    (schema : Option String) : Except PyErr (List Rec) × List Event :=
  runQueryOp connection .get_check_constraint
    [.vStr (normalizeSchema schema), .vStr table_name]
    (fun cursor => cursor.fetchallRes.bind checkRecs)

/-- `do_savepoint` raises `NotImplementedError`. -/
def do_savepoint (connection : Conn) (name : String) : Except PyErr Unit :=
  .error .notImplementedError

/-- `do_rollback_to_savepoint` raises `NotImplementedError`. -/
def do_rollback_to_savepoint (connection : Conn) (name : String) :
    Except PyErr Unit :=
  .error .notImplementedError

/-- `do_release_savepoint` raises `NotImplementedError`. -/
def do_release_savepoint (connection : Conn) (name : String) :
    Except PyErr Unit :=
  .error .notImplementedError

/-- `do_recover_twophase` raises `NotImplementedError`. -/
def do_recover_twophase (connection : Conn) : Except PyErr Unit :=
  .error .notImplementedError

/-- `do_prepare_twophase` raises `NotImplementedError`. -/
def do_prepare_twophase (connection : Conn) (xid : PyVal) :
    Except PyErr Unit :=
  .error .notImplementedError

/-- `do_commit_twophase` raises `NotImplementedError`. -/
def do_commit_twophase (connection : Conn) (xid : PyVal)
    (is_prepared recover : Bool) : Except PyErr Unit :=
  .error .notImplementedError

/-- `do_begin_twophase` raises `NotImplementedError`. -/
def do_begin_twophase (connection : Conn) (xid : PyVal) : Except PyErr Unit :=
  .error .notImplementedError

/-- `create_xid` raises `NotSupportedError` with its fixed message. -/
def create_xid : Except PyErr Unit :=
  .error (.notSupportedError "transactions not supported over http yet")

/-- The dialect state observable through the isolation-level accessors. -/
structure DialectState where
  isolation : String
deriving DecidableEq

/-- The state a fresh dialect starts in: `isolation_level = "SNAPSHOT"`. -/
def startState : DialectState := ⟨isolation_level⟩

/-- `do_begin` is `pass`: no exception, no state change. -/
def do_begin (d : DialectState) (dbapi_connection : Conn) :
    Except PyErr DialectState := .ok d

/-- `do_commit` is `pass`: no exception, no state change. -/
def do_commit (d : DialectState) (dbapi_connection : Conn) :
    Except PyErr DialectState := .ok d

/-- `do_rollback` is `pass`: no exception, no state change. -/
def do_rollback (d : DialectState) (dbapi_connection : Conn) :
    Except PyErr DialectState := .ok d

/-- `reset_isolation_level` is `pass`: no exception, no state change. -/
def reset_isolation_level (d : DialectState) (dbapi_conn : Conn) :
    Except PyErr DialectState := .ok d

/-- `set_isolation_level` is `pass`: the requested level is discarded. -/
def set_isolation_level (d : DialectState) (dbapi_conn : Conn)
    (level : String) : Except PyErr DialectState := .ok d

/-- `get_isolation_level` returns `self.isolation_level`. -/
def get_isolation_level (d : DialectState) (dbapi_conn : Conn) : String :=
  d.isolation

/-- `get_default_isolation_level` returns `self.isolation_level`. -/
def get_default_isolation_level (d : DialectState) (dbapi_conn : Conn) :
    String :=
  d.isolation

/-- One call to a transaction-control / isolation-level operation, with the
connection argument (and, for `set`, the requested level) it is given. -/
inductive LifecycleOp where
  | beginTx (c : Conn)
  | commitTx (c : Conn)
  | rollbackTx (c : Conn)
  | resetIso (c : Conn)
  | setIso (c : Conn) (level : String)

/-- Dispatch one lifecycle call on the dialect state. -/
def applyOp (d : DialectState) : LifecycleOp → Except PyErr DialectState
  | .beginTx c => do_begin d c
  | .commitTx c => do_commit d c
  | .rollbackTx c => do_rollback d c
  | .resetIso c => reset_isolation_level d c
  | .setIso c level => set_isolation_level d c level

/-- Run a sequence of lifecycle calls, propagating any exception. -/
def applyOps (d : DialectState) : List LifecycleOp → Except PyErr DialectState
  | [] => .ok d
  | op :: rest => (applyOp d op).bind (fun d2 => applyOps d2 rest)

/-- A URL-like object, modelled by the two mappings the code reads from it:
`url.translate_connect_args()` and `url.query`. -/
structure URL where
  translate_connect_args : String → Option String
  query : String → Option String

/-- Python `dict.update`: after `base.update(upd)`, a lookup returns the
value from `upd` when the key is there, else the value from `base`. -/
def dictUpdate (base upd : String → Option String) : String → Option String :=
  fun k =>
    match upd k with
    | some v => some v
    | none => base k

/-- `create_connect_args`: `opts = url.translate_connect_args();
opts.update(url.query); return [], opts`. -/
def create_connect_args (url : URL) :
    List PyVal × (String → Option String) :=
  ([], dictUpdate url.translate_connect_args url.query)

end RadioDuckDialect

/-! ## Statement vocabulary and concrete fixtures -/

/-- A blank/absent schema argument in the sense of the normalization test:
`None`, the empty string, or a whitespace-only string. -/
def blankSchema (os : Option String) : Prop :=
  os = none ∨ ∃ s, os = some s ∧ pyStrip s = ""

/-- Every query executed in the trace had the schema parameter (the first
bound parameter) equal to `"main"`. -/
def schemaBoundMain (t : List Event) : Prop :=
  ∀ q ps, Event.executed q ps ∈ t → ps.head? = some (.vStr "main")

/-- Every query executed in the trace was issued with an empty bound
parameter list (no schema value, no value at all). -/
def noParamsBound (t : List Event) : Prop :=
  ∀ q ps, Event.executed q ps ∈ t → ps = []

/-- Catalog rows of the index query: `[name, creation-sql, unique]`. -/
def indexRowsOf (l : List (PyVal × String × PyVal)) : List (List PyVal) :=
  l.map (fun x => [x.1, .vStr x.2.1, x.2.2])

/-- The intermediate `name`/`sql`/`unique` maps built from those rows. -/
def indexMapsOf (l : List (PyVal × String × PyVal)) : List Rec :=
  l.map (fun x => [("name", x.1), ("sql", .vStr x.2.1), ("unique", x.2.2)])

/-- The final index records: `sql` dropped, `column_names` derived from the
creation SQL. -/
def indexRecsOf (l : List (PyVal × String × PyVal)) : List Rec :=
  l.map (fun x =>
    [("name", x.1), ("unique", x.2.2),
      ("column_names", .vStrList (specColumnNames x.2.1))])

/-- A cursor whose every step succeeds with trivial data. -/
def stubCursor : Cursor where
  execRes := fun _ _ => .ok ()
  rowcount := 1
  fetchallRes := .ok []
  fetchoneRes := .ok none

/-- A connection that hands out `stubCursor`. -/
def stubConn : Conn := ⟨.ok stubCursor⟩

/-- A cursor whose `fetchone` finds a two-column row. -/
def rowCursor : Cursor where
  execRes := fun _ _ => .ok ()
  rowcount := 1
  fetchallRes := .ok [[.vStr "create view v as select 1", .vStrList ["a"]]]
  fetchoneRes := .ok (some [.vStr "create view v as select 1", .vStrList ["a"]])

/-- A connection that hands out `rowCursor`. -/
def rowConn : Conn := ⟨.ok rowCursor⟩

/-- Two index catalog rows: one whose creation SQL has a parenthesized
column list, one without any parenthesized group. -/
def idxFixture : List (PyVal × String × PyVal) :=
  [(.vStr "ix", "CREATE INDEX ix ON t (col_a, col_b)", .vBool true),
    (.vStr "ix2", "no parens here", .vBool false)]

/-- A cursor whose `fetchall` returns the index fixture rows. -/
def idxCursor : Cursor where
  execRes := fun _ _ => .ok ()
  rowcount := 2
  fetchallRes := .ok (indexRowsOf idxFixture)
  fetchoneRes := .ok none

/-- A connection that hands out `idxCursor`. -/
def idxConn : Conn := ⟨.ok idxCursor⟩

/-- A URL fixture whose translated components and query string overlap on
the key `"port"`. -/
def urlFixture : RadioDuckDialect.URL where
  translate_connect_args := fun k =>
    if k = "host" then some "localhost"
    else if k = "port" then some "8000" else none
  query := fun k => if k = "port" then some "9000" else none

/-! ## Shared lemmas about the common cursor-acquiring shape -/

/-- When the cursor is obtained, the trace of the shared shape is exactly
one executed query followed by the close event. -/
theorem runQueryOp_trace_ok {α : Type} (conn : Conn) (cur : Cursor)
    (h : conn.cursorRes = .ok cur) (q : Query) (ps : List PyVal)
    (read : Cursor → Except PyErr α) :
    (runQueryOp conn q ps read).2 = [.executed q ps, .closed] := by
  simp [runQueryOp, h]

/-- Any executed event in the trace of the shared shape carries exactly the
query and parameter list the operation bound. -/
theorem runQueryOp_executed {α : Type} (conn : Conn) (q0 : Query)
    (ps0 : List PyVal) (read : Cursor → Except PyErr α) (q : Query)
    (ps : List PyVal)
    (h : Event.executed q ps ∈ (runQueryOp conn q0 ps0 read).2) :
    q = q0 ∧ ps = ps0 := by
  cases hc : conn.cursorRes <;> simp [runQueryOp, hc] at h
  exact h

/-- When the cursor is obtained and `execute` succeeds, the result of the
shared shape is the result of the row-reading step. -/
theorem runQueryOp_fst_ok {α : Type} (conn : Conn) (cur : Cursor)
    (h : conn.cursorRes = .ok cur) (q : Query) (ps : List PyVal)
    (read : Cursor → Except PyErr α)
    (hexec : cur.execRes q ps = .ok ()) :
    (runQueryOp conn q ps read).1 = read cur := by
  simp [runQueryOp, h, hexec, Except.bind]

/-- Blank/absent schema arguments normalize to `"main"`. -/
theorem normalizeSchema_of_blank (os : Option String) (h : blankSchema os) :
    normalizeSchema os = "main" := by
  rcases h with h | ⟨s, hs, hb⟩
  · simp [h, normalizeSchema]
  · simp [hs, normalizeSchema, hb]

/-- The shared shape whose first bound parameter is `"main"` satisfies
`schemaBoundMain`. -/
theorem schemaBoundMain_runQueryOp {α : Type} (conn : Conn) (q0 : Query)
    (s : String) (rest : List PyVal) (read : Cursor → Except PyErr α)
    (hs : s = "main") :
    schemaBoundMain (runQueryOp conn q0 (.vStr s :: rest) read).2 := by
  intro q ps hmem
  obtain ⟨hq, hps⟩ := runQueryOp_executed conn q0 _ read q ps hmem
  simp [hps, hs]

/-- Building the `name`/`sql`/`unique` maps from well-shaped index rows
never raises and is the per-row map. -/
theorem buildIndexMaps_rowsOf (l : List (PyVal × String × PyVal)) :
    buildIndexMaps (indexRowsOf l) = .ok (indexMapsOf l) := by
  induction l with
  | nil => rfl
  | cons x xs ih =>
      obtain ⟨n, s, u⟩ := x
      simp [indexRowsOf, indexMapsOf] at ih
      simp [indexRowsOf, indexMapsOf, buildIndexMaps, pyIndex,
        Except.instMonad, Except.bind, Except.pure, Except.map, ih]

/-- Post-processing the `name`/`sql`/`unique` maps never raises: it sets
`column_names` to the derived list and drops the `sql` field. -/
theorem processIndexMaps_mapsOf (l : List (PyVal × String × PyVal)) :
    processIndexMaps (indexMapsOf l) = .ok (indexRecsOf l) := by
  induction l with
  | nil => rfl
  | cons x xs ih =>
      obtain ⟨n, s, u⟩ := x
      simp [indexMapsOf, indexRecsOf] at ih
      cases hg : reFirstGroup s <;>
        simp [indexMapsOf, indexRecsOf, processIndexMaps, recSet, recGet,
          recDel, asStr, specColumnNames, hg, ih, Except.instMonad,
          Except.bind, Except.pure, Except.map]

/-! ## Claim theorems -/

/-- C1: for every cursor-acquiring introspection operation and every
behaviour of the supplied connection (execute, fetchall, fetchone or
post-processing may raise), once `connection.cursor()` has yielded a
cursor, the close event is in the operation's trace on every exit path. -/
theorem C1_cursor_closed_on_every_path (conn : Conn) (cur : Cursor)
    (h : conn.cursorRes = .ok cur) (t i v sq : String) (os : Option String) :
    Event.closed ∈ (RadioDuckDialect.has_table conn t os).2 ∧
    Event.closed ∈ (RadioDuckDialect.has_index conn t i os).2 ∧
    Event.closed ∈ (RadioDuckDialect.has_sequence conn sq os).2 ∧
    Event.closed ∈ (RadioDuckDialect.get_table_names conn os).2 ∧
    Event.closed ∈ (RadioDuckDialect.get_view_names conn os).2 ∧
    Event.closed ∈ (RadioDuckDialect.get_temp_table_names conn os).2 ∧
    Event.closed ∈ (RadioDuckDialect.get_temp_view_names conn os).2 ∧
    Event.closed ∈ (RadioDuckDialect.get_sequence_names conn os).2 ∧
    Event.closed ∈ (RadioDuckDialect.get_view_definition conn v os).2 ∧
    Event.closed ∈ (RadioDuckDialect.get_columns conn t os).2 ∧
    Event.closed ∈ (RadioDuckDialect.get_pk_constraint conn t os).2 ∧
    Event.closed ∈ (RadioDuckDialect.get_unique_constraints conn t os).2 ∧
    Event.closed ∈ (RadioDuckDialect.get_foreign_keys conn t os).2 ∧
    Event.closed ∈ (RadioDuckDialect.get_check_constraints conn t os).2 ∧
    Event.closed ∈ (RadioDuckDialect.get_indexes conn t os).2 := by
  simp [RadioDuckDialect.has_table, RadioDuckDialect.has_index,
    RadioDuckDialect.has_sequence, RadioDuckDialect.get_table_names,
    RadioDuckDialect.get_view_names, RadioDuckDialect.get_temp_table_names,
    RadioDuckDialect.get_temp_view_names, RadioDuckDialect.get_sequence_names,
    RadioDuckDialect.get_view_definition, RadioDuckDialect.get_columns,
    RadioDuckDialect.get_pk_constraint, RadioDuckDialect.get_unique_constraints,
    RadioDuckDialect.get_foreign_keys, RadioDuckDialect.get_check_constraints,
    RadioDuckDialect.get_indexes, runQueryOp, h]

/-- C1 witness: a concrete connection that does yield a cursor. -/
theorem C1_cursor_closed_on_every_path_witness :
    Event.closed ∈ (RadioDuckDialect.has_table stubConn "t" none).2 :=
  (C1_cursor_closed_on_every_path stubConn stubCursor rfl "t" "i" "v" "s" none).1

/-- C2 counterexample: `get_temp_view_names` takes a schema argument, yet
with the absent schema `None` it issues its catalog query with an empty
parameter list, so no schema parameter is bound to `"main"`. -/
theorem C2_counterexample_temp_views_not_bound_to_main :
    ¬ schemaBoundMain (RadioDuckDialect.get_temp_view_names stubConn none).2 := by
  intro h
  have hm := h .get_temp_views []
    (by simp [RadioDuckDialect.get_temp_view_names, runQueryOp, stubConn])
  simp at hm

/-- C2 (amended): for every schema-taking introspection operation other
than `get_temp_view_names` (whose catalog query takes no schema parameter
at all), a blank or absent schema argument leads to the catalog query being
issued with the schema parameter bound to `"main"`. -/
theorem C2_blank_schema_normalized_to_main (conn : Conn) (t i v sq : String)
    (os : Option String) (h : blankSchema os) :
    schemaBoundMain (RadioDuckDialect.has_table conn t os).2 ∧
    schemaBoundMain (RadioDuckDialect.has_index conn t i os).2 ∧
    schemaBoundMain (RadioDuckDialect.has_sequence conn sq os).2 ∧
    schemaBoundMain (RadioDuckDialect.get_table_names conn os).2 ∧
    schemaBoundMain (RadioDuckDialect.get_view_names conn os).2 ∧
    schemaBoundMain (RadioDuckDialect.get_temp_table_names conn os).2 ∧
    schemaBoundMain (RadioDuckDialect.get_sequence_names conn os).2 ∧
    schemaBoundMain (RadioDuckDialect.get_view_definition conn v os).2 ∧
    schemaBoundMain (RadioDuckDialect.get_columns conn t os).2 ∧
    schemaBoundMain (RadioDuckDialect.get_pk_constraint conn t os).2 ∧
    schemaBoundMain (RadioDuckDialect.get_unique_constraints conn t os).2 ∧
    schemaBoundMain (RadioDuckDialect.get_foreign_keys conn t os).2 ∧
    schemaBoundMain (RadioDuckDialect.get_check_constraints conn t os).2 ∧
    schemaBoundMain (RadioDuckDialect.get_indexes conn t os).2 := by
  have hm := normalizeSchema_of_blank os h
  exact ⟨schemaBoundMain_runQueryOp _ _ _ _ _ hm,
    schemaBoundMain_runQueryOp _ _ _ _ _ hm,
    schemaBoundMain_runQueryOp _ _ _ _ _ hm,
    schemaBoundMain_runQueryOp _ _ _ _ _ hm,
    schemaBoundMain_runQueryOp _ _ _ _ _ hm,
    schemaBoundMain_runQueryOp _ _ _ _ _ hm,
    schemaBoundMain_runQueryOp _ _ _ _ _ hm,
    schemaBoundMain_runQueryOp _ _ _ _ _ hm,
    schemaBoundMain_runQueryOp _ _ _ _ _ hm,
    schemaBoundMain_runQueryOp _ _ _ _ _ hm,
    schemaBoundMain_runQueryOp _ _ _ _ _ hm,
    schemaBoundMain_runQueryOp _ _ _ _ _ hm,
    schemaBoundMain_runQueryOp _ _ _ _ _ hm,
    schemaBoundMain_runQueryOp _ _ _ _ _ hm⟩

/-- C2 witness: a whitespace-only schema string on a live connection. -/
theorem C2_blank_schema_normalized_to_main_witness :
    schemaBoundMain (RadioDuckDialect.has_table stubConn "t" (some "  ")).2 :=
  (C2_blank_schema_normalized_to_main stubConn "t" "i" "v" "s" (some "  ")
    (Or.inr ⟨"  ", rfl, rfl⟩)).1

/-- C3 counterexample: `get_temp_table_names` called with the absent schema
`None` binds the normalized schema, so its executed parameter list is
`["main"]`, not empty. -/
theorem C3_counterexample_temp_tables_bind_schema :
    ¬ noParamsBound (RadioDuckDialect.get_temp_table_names stubConn none).2 := by
  intro h
  have hm := h .get_temp_tables [.vStr "main"]
    (by simp [RadioDuckDialect.get_temp_table_names, runQueryOp, stubConn,
      normalizeSchema])
  simp at hm

/-- C3 (amended): `get_temp_view_names` issues its catalog query with an
empty parameter list, while `get_temp_table_names` binds exactly one
parameter, the normalized schema name. -/
theorem C3_temp_query_parameter_lists (conn : Conn) (os : Option String) :
    ((RadioDuckDialect.get_temp_view_names conn os).2 = [] ∨
      (RadioDuckDialect.get_temp_view_names conn os).2 =
        [.executed .get_temp_views [], .closed]) ∧
    ((RadioDuckDialect.get_temp_table_names conn os).2 = [] ∨
      (RadioDuckDialect.get_temp_table_names conn os).2 =
        [.executed .get_temp_tables [.vStr (normalizeSchema os)], .closed]) := by
  cases hc : conn.cursorRes <;>
    simp [RadioDuckDialect.get_temp_view_names,
      RadioDuckDialect.get_temp_table_names, runQueryOp, hc]

/-- C10: the behaviour of `get_temp_view_names` does not depend on the
schema argument at all — any two schema values give the same result and
trace — and when a query is executed it is the temp-view query with an
empty bound parameter list. -/
theorem C10_temp_views_schema_independent (conn : Conn)
    (s1 s2 : Option String) :
    RadioDuckDialect.get_temp_view_names conn s1 =
      RadioDuckDialect.get_temp_view_names conn s2 ∧
    ((RadioDuckDialect.get_temp_view_names conn s1).2 = [] ∨
      (RadioDuckDialect.get_temp_view_names conn s1).2 =
        [.executed .get_temp_views [], .closed]) := by
  refine ⟨rfl, ?_⟩
  cases hc : conn.cursorRes <;>
    simp [RadioDuckDialect.get_temp_view_names, runQueryOp, hc]

/-- C5: for every index row `[name, sql, unique]` returned by the catalog
query, `get_indexes` derives `column_names` by taking the first
parenthesized group of the creation SQL, splitting it on commas and
stripping whitespace from each piece (`[]` when there is no parenthesized
group), and the raw `sql` field is absent from every returned record. -/
theorem C5_get_indexes_column_extraction (conn : Conn) (cur : Cursor)
    (h : conn.cursorRes = .ok cur)
    (hexec : ∀ q ps, cur.execRes q ps = .ok ())
    (l : List (PyVal × String × PyVal))
    (hrows : cur.fetchallRes = .ok (indexRowsOf l))
    (t : String) (os : Option String) :
    (RadioDuckDialect.get_indexes conn t os).1 = .ok (indexRecsOf l) ∧
    (∀ rec ∈ indexRecsOf l, ∀ v : PyVal, ("sql", v) ∉ rec) := by
  constructor
  · simp [RadioDuckDialect.get_indexes, runQueryOp, h, hexec, hrows,
      buildIndexMaps_rowsOf, processIndexMaps_mapsOf, Except.instMonad,
      Except.bind, Except.pure, Except.map]
  · intro rec hrec v
    simp [indexRecsOf] at hrec
    obtain ⟨nx, sx, ux, hmem, hxe⟩ := hrec
    subst hxe
    simp

/-- C5 witness: one index whose creation SQL contains `(col_a, col_b)` and
one whose SQL has no parenthesized group; the first yields the trimmed
column names, the second yields `[]`, and neither record has a `sql` key. -/
theorem C5_get_indexes_column_extraction_witness :
    (RadioDuckDialect.get_indexes idxConn "t" none).1 =
      .ok [[("name", .vStr "ix"), ("unique", .vBool true),
        ("column_names", .vStrList ["col_a", "col_b"])],
        [("name", .vStr "ix2"), ("unique", .vBool false),
        ("column_names", .vStrList [])]] := by
  have h := (C5_get_indexes_column_extraction idxConn idxCursor rfl
    (fun _ _ => rfl) idxFixture rfl "t" none).1
  rw [h]
  rfl

/-- C4: on an error-free connection, `has_table`, `has_index` and
`has_sequence` return true exactly when the executed query's reported row
count equals 1, and false for any other row count. -/
theorem C4_has_ops_iff_rowcount_one (conn : Conn) (cur : Cursor)
    (h : conn.cursorRes = .ok cur)
    (hexec : ∀ q ps, cur.execRes q ps = .ok ())
    (t i sq : String) (os : Option String) :
    ((RadioDuckDialect.has_table conn t os).1 = .ok true ↔
      cur.rowcount = 1) ∧
    ((RadioDuckDialect.has_table conn t os).1 = .ok false ↔
      cur.rowcount ≠ 1) ∧
    ((RadioDuckDialect.has_index conn t i os).1 = .ok true ↔
      cur.rowcount = 1) ∧
    ((RadioDuckDialect.has_index conn t i os).1 = .ok false ↔
      cur.rowcount ≠ 1) ∧
    ((RadioDuckDialect.has_sequence conn sq os).1 = .ok true ↔
      cur.rowcount = 1) ∧
    ((RadioDuckDialect.has_sequence conn sq os).1 = .ok false ↔
      cur.rowcount ≠ 1) := by
  simp [RadioDuckDialect.has_table, RadioDuckDialect.has_index,
    RadioDuckDialect.has_sequence, runQueryOp, h, hexec, Except.bind,
    beq_iff_eq]

/-- C4 witness: a cursor reporting row count 1 makes `has_table` true. -/
theorem C4_has_ops_iff_rowcount_one_witness :
    (RadioDuckDialect.has_table stubConn "t" none).1 = .ok true :=
  ((C4_has_ops_iff_rowcount_one stubConn stubCursor rfl (fun _ _ => rfl)
    "t" "i" "s" none).1).mpr rfl

/-- C6: absence of a row is an empty result, never an error or null:
`get_pk_constraint` returns `[]` when `fetchone` finds no row and one
`name`/`column_names` record otherwise; `get_view_definition` returns `""`
when no row is found and the first column of the fetched row otherwise. -/
theorem C6_absent_row_is_empty_result (conn1 : Conn) (cur1 : Cursor)
    (conn2 : Conn) (cur2 : Cursor)
    (h1 : conn1.cursorRes = .ok cur1)
    (hexec1 : ∀ q ps, cur1.execRes q ps = .ok ())
    (hnone : cur1.fetchoneRes = .ok none)
    (h2 : conn2.cursorRes = .ok cur2)
    (hexec2 : ∀ q ps, cur2.execRes q ps = .ok ())
    (n c : PyVal) (rest : List PyVal)
    (hsome : cur2.fetchoneRes = .ok (some (n :: c :: rest)))
    (t v : String) (os : Option String) :
    (RadioDuckDialect.get_pk_constraint conn1 t os).1 = .ok [] ∧
    (RadioDuckDialect.get_view_definition conn1 v os).1 = .ok (.vStr "") ∧
    (RadioDuckDialect.get_pk_constraint conn2 t os).1 =
      .ok [[("name", n), ("column_names", c)]] ∧
    (RadioDuckDialect.get_view_definition conn2 v os).1 = .ok n := by
  simp [RadioDuckDialect.get_pk_constraint,
    RadioDuckDialect.get_view_definition, runQueryOp, h1, h2, hexec1, hexec2,
    hnone, hsome, pyIndex, Except.instMonad, Except.bind, Except.pure,
    Except.map]

/-- C6 witness: a missing row on one connection, a concrete two-column row
on another. -/
theorem C6_absent_row_is_empty_result_witness :
    (RadioDuckDialect.get_pk_constraint stubConn "t" none).1 = .ok [] ∧
    (RadioDuckDialect.get_view_definition rowConn "v" none).1 =
      .ok (.vStr "create view v as select 1") := by
  have h := C6_absent_row_is_empty_result stubConn stubCursor rowConn
    rowCursor rfl (fun _ _ => rfl) rfl rfl (fun _ _ => rfl)
    (.vStr "create view v as select 1") (.vStrList ["a"]) [] rfl "t" "v" none
  exact ⟨h.1, h.2.2.2⟩

/-- C7: `create_xid` raises the permanent not-supported error while the
savepoint, two-phase and table-comment operations raise the distinct
not-implemented error; each always raises and never returns normally, and
the two error kinds are distinguishable. -/
theorem C7_unsupported_vs_unimplemented (c : Conn) (name : String)
    (xid : PyVal) (p r : Bool) (t : String) (os : Option String) :
    RadioDuckDialect.create_xid =
      .error (.notSupportedError "transactions not supported over http yet") ∧
    RadioDuckDialect.do_savepoint c name = .error .notImplementedError ∧
    RadioDuckDialect.do_rollback_to_savepoint c name =
      .error .notImplementedError ∧
    RadioDuckDialect.do_release_savepoint c name =
      .error .notImplementedError ∧
    RadioDuckDialect.do_recover_twophase c = .error .notImplementedError ∧
    RadioDuckDialect.do_prepare_twophase c xid =
      .error .notImplementedError ∧
    RadioDuckDialect.do_commit_twophase c xid p r =
      .error .notImplementedError ∧
    RadioDuckDialect.do_begin_twophase c xid = .error .notImplementedError ∧
    RadioDuckDialect.get_table_comment c t os =
      .error .notImplementedError ∧
    (∀ msg : String, PyErr.notSupportedError msg ≠
      PyErr.notImplementedError) := by
  refine ⟨rfl, rfl, rfl, rfl, rfl, rfl, rfl, rfl, rfl, ?_⟩
  intro msg hmsg
  exact PyErr.noConfusion hmsg

/-- C7 witness: the raising stubs at concrete arguments. -/
theorem C7_unsupported_vs_unimplemented_witness :
    RadioDuckDialect.create_xid =
      .error (.notSupportedError "transactions not supported over http yet") ∧
    RadioDuckDialect.do_savepoint stubConn "sp" =
      .error .notImplementedError :=
  ⟨(C7_unsupported_vs_unimplemented stubConn "sp" .vNone true false "t"
      none).1,
    (C7_unsupported_vs_unimplemented stubConn "sp" .vNone true false "t"
      none).2.1⟩

/-- C8: `create_connect_args` returns an empty positional sequence and the
URL's translated components updated by its query string — on overlapping
keys the query-string value wins, and keys missing from the query string
keep their translated-component value. -/
theorem C8_create_connect_args_merge (url : RadioDuckDialect.URL)
    (k v : String) (h : url.query k = some v) :
    (RadioDuckDialect.create_connect_args url).1 = [] ∧
    (RadioDuckDialect.create_connect_args url).2 k = some v ∧
    (∀ k2, url.query k2 = none →
      (RadioDuckDialect.create_connect_args url).2 k2 =
        url.translate_connect_args k2) := by
  refine ⟨rfl, ?_, ?_⟩
  · simp [RadioDuckDialect.create_connect_args, RadioDuckDialect.dictUpdate, h]
  · intro k2 h2
    simp [RadioDuckDialect.create_connect_args, RadioDuckDialect.dictUpdate,
      h2]

/-- C8 witness: a URL whose components and query string collide on
`"port"`; the query-string value `"9000"` wins. -/
theorem C8_create_connect_args_merge_witness :
    (RadioDuckDialect.create_connect_args urlFixture).2 "port" =
      some "9000" :=
  (C8_create_connect_args_merge urlFixture "port" "9000" rfl).2.1

/-- C9: `do_begin`, `do_commit`, `do_rollback`, `reset_isolation_level`
and `set_isolation_level` never raise and never change the dialect state,
so after any sequence of such calls both isolation-level accessors still
return the fixed constant `"SNAPSHOT"`. -/
theorem C9_lifecycle_noops_keep_snapshot
    (ops : List RadioDuckDialect.LifecycleOp) (c : Conn) :
    RadioDuckDialect.applyOps RadioDuckDialect.startState ops =
      .ok RadioDuckDialect.startState ∧
    RadioDuckDialect.get_isolation_level RadioDuckDialect.startState c =
      "SNAPSHOT" ∧
    RadioDuckDialect.get_default_isolation_level
      RadioDuckDialect.startState c = "SNAPSHOT" := by
  refine ⟨?_, rfl, rfl⟩
  induction ops with
  | nil => rfl
  | cons op rest ih =>
      cases op <;>
        simp [RadioDuckDialect.applyOps, RadioDuckDialect.applyOp,
          RadioDuckDialect.do_begin, RadioDuckDialect.do_commit,
          RadioDuckDialect.do_rollback, RadioDuckDialect.reset_isolation_level,
          RadioDuckDialect.set_isolation_level, Except.bind, ih]

end RadioDuck
